import Mathlib

/-!
Shallow embedding of the job-search backend (`src/Application/backend.py`)
and verification of the frozen claims about it.

Conventions of the embedding:
* The relational store is modelled as explicit list-valued state that the
  operations take and return; SQL query evaluation (an external collaborator
  per the spec) is modelled at its interface: `filter` / `first` / `limit`
  become `List.filter` / `List.find?` / `List.take` in insertion (rowid)
  order, SQL `LIKE '%x%'` containment becomes case-insensitive substring
  containment, SQL `=` on strings becomes string equality.
* Python strings are modelled by Lean `String`; `str.lower` is modelled on
  its ASCII fragment (all constant data in the program is ASCII).
* The bcrypt primitive is opaque per the spec ("an opaque one-way keyed
  function"); it is modelled as a perfect (injective) hash, i.e. the stored
  hash is identified with the processed password it was computed from.
* Fallible endpoints return `Except`; the HTTP error kinds become
  constructors of small error inductives.
-/

namespace JobSearch

/-! ## Python string primitives -/

/-- Python `str.lower`, on the ASCII fragment (`Char.toLower` maps A-Z). -/
def pyLower (s : String) : String :=
  String.mk (s.data.map Char.toLower)

/-- Contiguous-sublist test on character lists: `needle` occurs somewhere
inside the list (Python `needle in hay`). -/
def substrAux (needle : List Char) : List Char → Bool
  | [] => needle.isEmpty
  | c :: cs => needle.isPrefixOf (c :: cs) || substrAux needle cs

/-- Python `needle in hay` on strings. -/
def pyContains (hay needle : String) : Bool :=
  substrAux needle.data hay.data

/-- Case-insensitive substring containment: the meaning of the SQL
`field LIKE '%pat%'` / `ilike` tests issued by the backend (SQLite's LIKE is
case-insensitive on ASCII; the patterns the backend builds contain no SQL
wildcards beyond the outer `%...%`). -/
def ciContains (field pat : String) : Bool :=
  pyContains (pyLower field) (pyLower pat)

/-! ## UTF-8 encoding and decoding (Python `str.encode('utf-8')` and
`bytes.decode('utf-8', errors='ignore')`) -/

/-- UTF-8 encoding of one scalar value, as a list of byte values. -/
def utf8EncodeChar (c : Char) : List Nat :=
  let n := c.toNat
  if n < 0x80 then [n]
  else if n < 0x800 then [0xC0 + n / 64, 0x80 + n % 64]
  else if n < 0x10000 then
    [0xE0 + n / 4096, 0x80 + (n / 64) % 64, 0x80 + n % 64]
  else
    [0xF0 + n / 262144, 0x80 + (n / 4096) % 64, 0x80 + (n / 64) % 64, 0x80 + n % 64]

/-- Python `s.encode('utf-8')` as a list of byte values. -/
def utf8Encode (s : String) : List Nat :=
  (s.data.map utf8EncodeChar).flatten

/-- A UTF-8 continuation byte. -/
def utf8Cont (b : Nat) : Bool :=
  0x80 ≤ b && b < 0xC0

/-- Decoder body for `bytes.decode('utf-8', errors='ignore')`: invalid
portions are skipped (CPython skips the maximal subpart of an ill-formed
sequence; an incomplete final sequence is dropped).  The fuel argument is a
bound on the number of steps; it is instantiated with the length of the
input, which suffices because every recursive call is on a strict suffix. -/
def utf8DecodeIgnoreAux : Nat → List Nat → List Char
  | 0, _ => []
  | _ + 1, [] => []
  | fuel + 1, b :: bs =>
    if b < 0x80 then Char.ofNat b :: utf8DecodeIgnoreAux fuel bs
    else if b < 0xC2 then utf8DecodeIgnoreAux fuel bs
    else if b < 0xE0 then
      match bs with
      | b1 :: bs1 =>
        if utf8Cont b1 then
          Char.ofNat ((b - 0xC0) * 64 + (b1 - 0x80)) :: utf8DecodeIgnoreAux fuel bs1
        else utf8DecodeIgnoreAux fuel bs
      | [] => []
    else if b < 0xF0 then
      match bs with
      | b1 :: rest =>
        if utf8Cont b1 && (decide (b ≠ 0xE0) || decide (0xA0 ≤ b1))
            && (decide (b ≠ 0xED) || decide (b1 < 0xA0)) then
          match rest with
          | b2 :: bs2 =>
            if utf8Cont b2 then
              Char.ofNat ((b - 0xE0) * 4096 + (b1 - 0x80) * 64 + (b2 - 0x80)) ::
                utf8DecodeIgnoreAux fuel bs2
            else utf8DecodeIgnoreAux fuel rest
          | [] => []
        else utf8DecodeIgnoreAux fuel bs
      | [] => []
    else if b < 0xF5 then
      match bs with
      | b1 :: rest =>
        if utf8Cont b1 && (decide (b ≠ 0xF0) || decide (0x90 ≤ b1))
            && (decide (b ≠ 0xF4) || decide (b1 < 0x90)) then
          match rest with
          | b2 :: rest2 =>
            if utf8Cont b2 then
              match rest2 with
              | b3 :: bs3 =>
                if utf8Cont b3 then
                  Char.ofNat ((b - 0xF0) * 262144 + (b1 - 0x80) * 4096 +
                      (b2 - 0x80) * 64 + (b3 - 0x80)) :: utf8DecodeIgnoreAux fuel bs3
                else utf8DecodeIgnoreAux fuel rest2
              | [] => []
            else utf8DecodeIgnoreAux fuel rest
          | [] => []
        else utf8DecodeIgnoreAux fuel bs
      | [] => []
    else utf8DecodeIgnoreAux fuel bs

/-- Python `bytes.decode('utf-8', errors='ignore')`. -/
def utf8DecodeIgnore (l : List Nat) : List Char :=
  utf8DecodeIgnoreAux l.length l

/-! ## Credential store (`verify_password`, `get_password_hash`, `login`) -/

/-- The truncation performed by `verify_password` / `get_password_hash`
(backend.py lines 155-165):
`password.encode('utf-8')[:72].decode('utf-8', errors='ignore')`. -/
def pyTruncate72 (password : String) : String :=
  String.mk (utf8DecodeIgnore ((utf8Encode password).take 72))

/-- `get_password_hash` (backend.py line 161): truncate, then hash with the
opaque bcrypt primitive.  The hash is modelled as the processed password
itself (a perfect one-way function at the spec's interface boundary). -/
def getPasswordHash (password : String) : String :=
  pyTruncate72 password

/-- `verify_password` (backend.py line 155): truncate the supplied password
the same way and check it against the stored hash with the opaque
`pwd_context.verify`. -/
def verifyPassword (plain hashed : String) : Bool :=
  pyTruncate72 plain == hashed

/-- A row of the `users` table, restricted to the columns the verified
operations read. -/
structure UserRec where
  id : Nat
  email : String
  hashed_password : String
deriving DecidableEq

/-- The single failure kind of `/auth/login`: HTTP 400 "Invalid credentials"
(backend.py line 253), raised identically for an absent email and for a
password mismatch. -/
inductive LoginError
  | invalidCredentials
deriving DecidableEq

/-- `login` (backend.py lines 249-270), up to token issuance: look the user
up by email (`filter(User.email == ...).first()`), then verify the
password; both failure modes raise the same error. -/
def login (users : List UserRec) (email password : String) :
    Except LoginError UserRec :=
  match users.find? (fun u => u.email == email) with
  | none => .error .invalidCredentials
  | some u =>
    if verifyPassword password u.hashed_password then .ok u
    else .error .invalidCredentials

/-- Discriminator for success of an `Except`-valued operation. -/
def isSuccess : Except ε α → Bool
  | .ok _ => true
  | .error _ => false

/-! ## Token issuer / validator -/

/-- `ACCESS_TOKEN_EXPIRE_MINUTES` (backend.py line 27). -/
def ACCESS_TOKEN_EXPIRE_MINUTES : Nat := 30

/-- The decoded JWT payload: subject claim and absolute expiry instant
(seconds).  The token is self-contained; signing is the JWT library's
concern and the library is trusted to round-trip the payload. -/
structure Token where
  sub : Option String
  exp : Nat
deriving DecidableEq

/-- `create_access_token` (backend.py lines 167-172): the expiry is
issue-time plus the fixed TTL. -/
def createAccessToken (subject : String) (now : Nat) : Token :=
  { sub := some subject, exp := now + ACCESS_TOKEN_EXPIRE_MINUTES * 60 }

/-- The two failure kinds of token validation (backend.py lines 182-185):
`expired` is the 401 "Token has expired" branch, `invalid` covers the 401
responses for a malformed token or a missing subject claim. -/
inductive TokenError
  | expired
  | invalid
deriving DecidableEq

/-- `get_current_user_email` (backend.py lines 174-185).  Modelled from the
spec: the expiry comparison lives in the external JWT library (`jwt.decode`),
which per the spec (and RFC 7519) accepts a token strictly before its expiry
instant and raises `ExpiredSignatureError` at or after it.  A missing `sub`
claim is the generic invalid-credentials branch. -/
def getCurrentUserEmail (t : Token) (now : Nat) : Except TokenError String :=
  if t.exp ≤ now then .error .expired
  else
    match t.sub with
    | none => .error .invalid
    | some email => .ok email

/-! ## Job catalog (`/jobs/`, backend.py lines 272-395) -/

/-- A row of the `jobs` table, restricted to the columns the verified
operations read (salary, description, requirements, job type, remote flag
and the posting timestamp are carried by the code but inspected by none of
the specified logic). -/
structure Job where
  title : String
  company : String
  location : String
  category : String
deriving DecidableEq

set_option maxHeartbeats 1600000 in
/-- The static sample dataset inserted by the seeding branch of `get_jobs`
(backend.py lines 293-390), in source order. -/
def sampleJobs : List Job := [
  ⟨"Flutter Developer", "Tech Corp", "New York, NY", "IT"⟩,
  ⟨"Data Analyst", "Data Insights", "San Francisco, CA", "IT"⟩,
  ⟨"Senior Python Developer", "CodeCraft Inc", "Austin, TX", "IT"⟩,
  ⟨"Product Manager", "Innovation Labs", "Seattle, WA", "IT"⟩,
  ⟨"UX Designer", "Design Studio", "Los Angeles, CA", "IT"⟩,
  ⟨"DevOps Engineer", "Cloud Solutions", "Remote", "IT"⟩,
  ⟨"React Developer", "WebDev Co", "Denver, CO", "IT"⟩,
  ⟨"Mobile App Tester", "QA Masters", "Remote", "IT"⟩,
  ⟨"Data Scientist", "AI Innovations", "San Francisco, CA", "IT"⟩,
  ⟨"Backend Engineer", "StartupXYZ", "New York, NY", "IT"⟩,
  ⟨"Java Developer", "Enterprise Solutions", "Atlanta, GA", "IT"⟩,
  ⟨"iOS Developer", "Mobile First", "San Jose, CA", "IT"⟩,
  ⟨"Full Stack Developer", "Tech Startup", "Remote", "IT"⟩,
  ⟨"AI/ML Engineer", "Deep Learning Co", "Boston, MA", "IT"⟩,
  ⟨"Cybersecurity Analyst", "SecureNet", "Remote", "IT"⟩,
  ⟨"Database Administrator", "DataSafe Inc", "Chicago, IL", "IT"⟩,
  ⟨"Cloud Architect", "CloudTech", "Remote", "IT"⟩,
  ⟨"Software Tester", "QA Solutions", "Austin, TX", "IT"⟩,
  ⟨"Technical Writer", "DocTech", "Remote", "IT"⟩,
  ⟨"Network Engineer", "NetWorks LLC", "Houston, TX", "IT"⟩,
  ⟨"Marketing Manager", "Marketing Pro", "Remote", "Marketing"⟩,
  ⟨"Sales Representative", "SalesPro Corp", "Chicago, IL", "Marketing"⟩,
  ⟨"Content Writer", "MediaWorks", "Remote", "Marketing"⟩,
  ⟨"Graphic Designer", "Creative Agency", "Miami, FL", "Marketing"⟩,
  ⟨"SEO Specialist", "Digital Growth", "Remote", "Marketing"⟩,
  ⟨"Social Media Manager", "Brand Builders", "Remote", "Marketing"⟩,
  ⟨"Digital Marketing Specialist", "AdTech Solutions", "Los Angeles, CA", "Marketing"⟩,
  ⟨"Brand Manager", "Consumer Goods Co", "New York, NY", "Marketing"⟩,
  ⟨"Email Marketing Specialist", "EmailPro", "Remote", "Marketing"⟩,
  ⟨"Public Relations Manager", "PR Experts", "Washington DC", "Marketing"⟩,
  ⟨"Video Editor", "Media Production", "Remote", "Marketing"⟩,
  ⟨"Copywriter", "Ad Agency", "Chicago, IL", "Marketing"⟩,
  ⟨"Marketing Analyst", "Analytics Co", "Remote", "Marketing"⟩,
  ⟨"Event Coordinator", "Events Plus", "Las Vegas, NV", "Marketing"⟩,
  ⟨"Influencer Marketing Manager", "Social Reach", "Remote", "Marketing"⟩,
  ⟨"Mechanical Engineer", "AutoTech Inc", "Detroit, MI", "Other"⟩,
  ⟨"Electrical Engineer", "PowerGrid Solutions", "Houston, TX", "Other"⟩,
  ⟨"Civil Engineer", "Construction Pros", "Phoenix, AZ", "Other"⟩,
  ⟨"Chemical Engineer", "ChemTech Industries", "Newark, NJ", "Other"⟩,
  ⟨"Biomedical Engineer", "MedDevice Corp", "Boston, MA", "Other"⟩,
  ⟨"Aerospace Engineer", "AeroSpace Systems", "Seattle, WA", "Other"⟩,
  ⟨"Industrial Engineer", "Manufacturing Co", "Cleveland, OH", "Other"⟩,
  ⟨"Quality Engineer", "QualityFirst", "San Diego, CA", "Other"⟩,
  ⟨"Process Engineer", "Tech Manufacturing", "Austin, TX", "Other"⟩,
  ⟨"Environmental Engineer", "EcoSolutions", "Portland, OR", "Other"⟩,
  ⟨"Structural Engineer", "BuildRight", "Miami, FL", "Other"⟩,
  ⟨"Systems Engineer", "Defense Systems", "Arlington, VA", "Other"⟩,
  ⟨"Manufacturing Engineer", "Auto Parts Inc", "Detroit, MI", "Other"⟩,
  ⟨"Petroleum Engineer", "Energy Corp", "Dallas, TX", "Other"⟩,
  ⟨"Materials Engineer", "Advanced Materials", "Pittsburgh, PA", "Other"⟩,
  ⟨"Financial Analyst", "FinTech Solutions", "Boston, MA", "Finance"⟩,
  ⟨"Accountant", "Accounting Firm", "New York, NY", "Finance"⟩,
  ⟨"Investment Banker", "Goldman & Associates", "New York, NY", "Finance"⟩,
  ⟨"Tax Advisor", "Tax Experts", "Chicago, IL", "Finance"⟩,
  ⟨"Auditor", "Audit Solutions", "Atlanta, GA", "Finance"⟩,
  ⟨"Business Analyst", "Consulting Group", "Washington DC", "Other"⟩,
  ⟨"Management Consultant", "Strategy Consultants", "San Francisco, CA", "Other"⟩,
  ⟨"Operations Manager", "Logistics Co", "Memphis, TN", "Other"⟩,
  ⟨"Risk Analyst", "Insurance Corp", "Hartford, CT", "Finance"⟩,
  ⟨"Portfolio Manager", "Investment Firm", "New York, NY", "Finance"⟩,
  ⟨"Financial Controller", "Manufacturing Corp", "Cleveland, OH", "Finance"⟩,
  ⟨"Budget Analyst", "Government Agency", "Washington DC", "Finance"⟩,
  ⟨"Credit Analyst", "Banking Corp", "Charlotte, NC", "Finance"⟩,
  ⟨"Supply Chain Manager", "Retail Giant", "Bentonville, AR", "Other"⟩,
  ⟨"Compliance Officer", "Financial Services", "New York, NY", "Finance"⟩,
  ⟨"Registered Nurse", "City Hospital", "Los Angeles, CA", "Other"⟩,
  ⟨"Pharmacist", "Pharmacy Chain", "Phoenix, AZ", "Other"⟩,
  ⟨"Medical Laboratory Technician", "LabCorp", "Burlington, NC", "Other"⟩,
  ⟨"Physical Therapist", "Rehab Center", "Denver, CO", "Other"⟩,
  ⟨"Research Scientist", "Biotech Labs", "San Diego, CA", "Other"⟩,
  ⟨"Clinical Research Coordinator", "Pharma Inc", "Boston, MA", "Other"⟩,
  ⟨"Medical Writer", "HealthComm", "Remote", "Other"⟩,
  ⟨"Radiologic Technologist", "Imaging Center", "Houston, TX", "Other"⟩,
  ⟨"Bioinformatics Specialist", "Genomics Lab", "San Francisco, CA", "Other"⟩,
  ⟨"Occupational Therapist", "Healthcare Services", "Seattle, WA", "Other"⟩,
  ⟨"Software Training Instructor", "Tech Academy", "Remote", "Other"⟩,
  ⟨"HR Manager", "PeopleFirst Inc", "Dallas, TX", "Other"⟩,
  ⟨"Project Manager", "Construction Plus", "Phoenix, AZ", "Other"⟩,
  ⟨"Customer Success Manager", "SaaS Company", "Remote", "Other"⟩,
  ⟨"Legal Assistant", "Law Firm", "New York, NY", "Other"⟩,
  ⟨"Executive Assistant", "Corporate HQ", "San Francisco, CA", "Other"⟩,
  ⟨"Translator", "Language Services", "Remote", "Other"⟩,
  ⟨"Urban Planner", "City Planning Dept", "Portland, OR", "Other"⟩,
  ⟨"Real Estate Agent", "Realty Group", "Miami, FL", "Other"⟩,
  ⟨"Interior Designer", "Design Interiors", "New York, NY", "Other"⟩]

/-- One optional substring filter of `get_jobs`: applied only when the
query parameter is present and non-empty (Python truthiness of
`if title:` / `if location:`); `Column.contains` issues
`LIKE '%pat%'`. -/
def likeTest (param : Option String) (field : String) : Bool :=
  match param with
  | none => true
  | some pat => if pat = "" then true else ciContains field pat

/-- The optional category filter of `get_jobs`: exact SQL equality, applied
only when the parameter is present, non-empty and not the sentinel
`"Any"`. -/
def categoryTest (param : Option String) (field : String) : Bool :=
  match param with
  | none => true
  | some cat => if cat = "" || cat = "Any" then true else field == cat

/-- The conjunction of the three `query.filter` applications of `get_jobs`
(backend.py lines 281-286). -/
def jobFilter (title loc cat : Option String) (j : Job) : Bool :=
  likeTest title j.title && likeTest loc j.location && categoryTest cat j.category

/-- Result of a `get_jobs` call: the response body and the catalog state
after the call. -/
structure JobsOutcome where
  returned : List Job
  db : List Job
deriving DecidableEq

/-- `get_jobs` (backend.py lines 272-395): run the filtered query; if it
returns nothing, insert the sample dataset and return a fresh query of the
whole table, otherwise return the filtered rows. -/
def getJobs (title loc cat : Option String) (db : List Job) : JobsOutcome :=
  let jobs := db.filter (jobFilter title loc cat)
  if jobs.isEmpty then
    let db2 := db ++ sampleJobs
    { returned := db2, db := db2 }
  else
    { returned := jobs, db := db }

/-! ## Recommendation matcher (`/jobs/recommended`, backend.py
lines 397-461) -/

/-- The static major-to-keywords table `major_keywords` (backend.py
lines 407-428), in its defined (insertion) order. -/
def majorKeywords : List (String × List String) := [
  ("computer science", ["developer", "software", "programmer", "engineer", "it", "tech", "data", "web"]),
  ("information technology", ["it", "developer", "software", "tech", "system", "network"]),
  ("software engineering", ["software", "developer", "engineer", "programmer", "tech"]),
  ("computer engineering", ["engineer", "software", "hardware", "developer", "tech"]),
  ("data science", ["data", "analyst", "scientist", "analytics", "bi", "machine learning"]),
  ("artificial intelligence", ["ai", "machine learning", "data", "scientist", "ml"]),
  ("cybersecurity", ["security", "cybersecurity", "analyst", "engineer"]),
  ("business administration", ["manager", "business", "admin", "operations", "consultant"]),
  ("management", ["manager", "director", "operations", "project", "business"]),
  ("marketing", ["marketing", "digital", "social media", "brand", "content"]),
  ("finance", ["financial", "analyst", "accountant", "finance", "banking"]),
  ("accounting", ["accountant", "finance", "auditor", "tax"]),
  ("economics", ["economist", "analyst", "financial", "research"]),
  ("mechanical engineering", ["mechanical", "engineer", "manufacturing", "design"]),
  ("electrical engineering", ["electrical", "engineer", "electronics", "power"]),
  ("civil engineering", ["civil", "engineer", "construction", "infrastructure"]),
  ("chemical engineering", ["chemical", "engineer", "process", "manufacturing"]),
  ("nursing", ["nurse", "healthcare", "medical", "clinical"]),
  ("medicine", ["doctor", "physician", "medical", "clinical", "healthcare"]),
  ("pharmacy", ["pharmacist", "pharmaceutical", "clinical"])]

/-- The keyword-selection loop of `get_recommended_jobs` (backend.py
lines 431-435): scan the table in order, take the keyword set of the first
major that occurs in the user string (`if major in user_major: ...; break`),
default `[]`. -/
def firstMatch (userMajor : String) : List (String × List String) → List String
  | [] => []
  | (major, ks) :: rest =>
    if pyContains userMajor major then ks else firstMatch userMajor rest

/-- The keyword test of one job inside the recommendation query: any
keyword `ilike`-contained in the title or in the category (the `or_` of
`Job.title.ilike` / `Job.category.ilike` filters, backend.py
lines 446-452). -/
def keywordHit (ks : List String) (j : Job) : Bool :=
  ks.any (fun k => ciContains j.title k || ciContains j.category k)

/-- `get_recommended_jobs` (backend.py lines 397-461): lowercase the user's
stored field-of-study string, pick a keyword set, and either filter the
catalog by it (first 20 rows) or fall back to the first 10 catalog rows when
no major matched or the filter matched nothing.  The catalog is not
modified. -/
def getRecommendedJobs (gradInstitution : String) (db : List Job) : List Job :=
  let userMajor := pyLower gradInstitution
  let keywords := firstMatch userMajor majorKeywords
  if keywords.isEmpty then db.take 10
  else
    let jobs := (db.filter (keywordHit keywords)).take 20
    if jobs.isEmpty then db.take 10 else jobs

/-! ## Application ledger (`/applications/`, backend.py lines 471-508) -/

/-- A row of the `applications` table. -/
structure JobApplication where
  id : Nat
  user_id : Nat
  job_id : Nat
  status : String
deriving DecidableEq

/-- The state the application ledger reads and writes: the ids present in
the `jobs` table (the only job column `create_application` branches on) and
the `applications` table in insertion order. -/
structure LedgerState where
  jobs : List Nat
  apps : List JobApplication
deriving DecidableEq

/-- The two failure kinds of `create_application`: HTTP 400 "Already
applied" and HTTP 404 "Job not found" (backend.py lines 484, 489). -/
inductive AppError
  | alreadyApplied
  | jobNotFound
deriving DecidableEq

/-- The duplicate-check predicate of `create_application` (backend.py
lines 478-481): an existing row with this user id and job id. -/
def samePair (userId jobId : Nat) (a : JobApplication) : Bool :=
  a.user_id == userId && a.job_id == jobId

/-- `create_application` (backend.py lines 471-508): first the duplicate
check, then the job lookup, then the insert of a "pending" row (the id is
the autoincrement primary key; rows are never deleted, so it is the row
count plus one).  The confirmation email is a fire-and-forget side effect
with no bearing on state or result. -/
def createApplication (userId jobId : Nat) (s : LedgerState) :
    Except AppError (LedgerState × JobApplication) :=
  if s.apps.any (samePair userId jobId) then .error .alreadyApplied
  else if s.jobs.contains jobId then
    let row : JobApplication :=
      { id := s.apps.length + 1, user_id := userId, job_id := jobId, status := "pending" }
    .ok (⟨s.jobs, s.apps ++ [row]⟩, row)
  else .error .jobNotFound

/-- Ledger states reachable by the operations of this core: the empty
store, job creation / seeding (which only ever append job rows), and
successful application submission. -/
inductive Reachable : LedgerState → Prop
  | init : Reachable ⟨[], []⟩
  | addJob {s : LedgerState} (jobId : Nat) :
      Reachable s → Reachable ⟨s.jobs ++ [jobId], s.apps⟩
  | applyOk {s s2 : LedgerState} {userId jobId : Nat} {row : JobApplication} :
      Reachable s → createApplication userId jobId s = .ok (s2, row) → Reachable s2

/-- At most one application row per (user, job) pair. -/
def AtMostOnePerPair (s : LedgerState) : Prop :=
  s.apps.Pairwise fun a b => ¬(a.user_id = b.user_id ∧ a.job_id = b.job_id)

/-! ## Helper lemmas -/

/-- A list whose positive-length prefix is empty is empty. -/
theorem take_pos_eq_nil {α : Type} {l : List α} {n : Nat} (hn : n ≠ 0)
    (h : l.take n = []) : l = [] := by
  rcases List.take_eq_nil_iff.mp h with h1 | h1
  · exact absurd h1 hn
  · exact h1

/-- Indexed characterization of the keyword-selection loop: if entry `i`
matches and no earlier entry does, the loop returns entry `i`'s keyword
set. -/
theorem firstMatch_spec_aux (um : String) :
    ∀ (L : List (String × List String)) (i : Nat) (hi : i < L.length),
      pyContains um ((L.get ⟨i, hi⟩).1) = true →
      (∀ j (hj : j < i), pyContains um ((L.get ⟨j, Nat.lt_trans hj hi⟩).1) = false) →
      firstMatch um L = (L.get ⟨i, hi⟩).2 := by
  intro L
  induction L with
  | nil => intro i hi; exact absurd hi (by simp)
  | cons p rest ih =>
    intro i hi hmatch hprev
    obtain ⟨m, ks⟩ := p
    cases i with
    | zero =>
      simp only [List.get] at hmatch
      simp [firstMatch, hmatch]
    | succ n =>
      have h0 : pyContains um m = false := by
        simpa using hprev 0 (Nat.succ_pos n)
      have hi2 : n < rest.length := Nat.lt_of_succ_lt_succ hi
      have hprev2 : ∀ j (hj : j < n),
          pyContains um ((rest.get ⟨j, Nat.lt_trans hj hi2⟩).1) = false := by
        intro j hj
        simpa using hprev (j + 1) (Nat.succ_lt_succ hj)
      have hm2 : pyContains um ((rest.get ⟨n, hi2⟩).1) = true := by
        simpa using hmatch
      simp [firstMatch, h0]
      simpa using ih n hi2 hm2 hprev2

/-- The keyword-selection loop is the first `find?` on the table, with the
empty default. -/
theorem firstMatch_eq_find (um : String) (L : List (String × List String)) :
    firstMatch um L = ((L.find? fun e => pyContains um e.1).map Prod.snd).getD [] := by
  induction L with
  | nil => rfl
  | cons p rest ih =>
    obtain ⟨m, ks⟩ := p
    by_cases h : pyContains um m = true
    · rw [List.find?_cons_of_pos _ (by simpa using h)]
      simp [firstMatch, h]
    · have h2 : pyContains um m = false := by simpa using h
      rw [List.find?_cons_of_neg _ (by simpa using h2)]
      simp [firstMatch, h2, ih]

/-- Every keyword set of the static table is non-empty. -/
theorem majorKeywords_sets_nonempty : ∀ e ∈ majorKeywords, e.2 ≠ [] := by decide

/-! ## The claims -/

/-- C1: for every user field-of-study string, the recommendation matcher
selects the keyword set of the first entry, in the static table's defined
order, whose major name is a substring of the lowercased field-of-study
string (first-match-wins); in particular the string
`"computer science and data science"` selects the `"computer science"`
keyword set, not the `"data science"` one. -/
theorem recommendation_first_match_wins :
    (∀ (fos : String) (i : Nat) (hi : i < majorKeywords.length),
        pyContains (pyLower fos) ((majorKeywords.get ⟨i, hi⟩).1) = true →
        (∀ j (hj : j < i),
          pyContains (pyLower fos) ((majorKeywords.get ⟨j, Nat.lt_trans hj hi⟩).1) = false) →
        firstMatch (pyLower fos) majorKeywords = (majorKeywords.get ⟨i, hi⟩).2)
    ∧ firstMatch (pyLower "computer science and data science") majorKeywords =
        ["developer", "software", "programmer", "engineer", "it", "tech", "data", "web"]
    ∧ firstMatch (pyLower "computer science and data science") majorKeywords ≠
        ["data", "analyst", "scientist", "analytics", "bi", "machine learning"] :=
  ⟨fun fos i hi h1 h2 => firstMatch_spec_aux (pyLower fos) majorKeywords i hi h1 h2,
   by decide, by decide⟩

/-- Witness for C1: the field-of-study string `"Data Science"` matches table
entry 4 and no earlier entry, and receives the data-science keyword set. -/
theorem recommendation_first_match_wins_witness :
    firstMatch (pyLower "Data Science") majorKeywords =
      ["data", "analyst", "scientist", "analytics", "bi", "machine learning"] :=
  recommendation_first_match_wins.1 "Data Science" 4 (by decide) (by decide) (by decide)

/-- C2: for every catalog and user field-of-study string: if a major
matches, the recommendation returns the first 20 (in catalog order) jobs in
which at least one keyword of the selected set occurs as a case-insensitive
substring of the title or category; if no major matches, or the keyword
filter yields zero jobs, it returns the first 10 catalog entries.  The
operation is a total function (it never fails) and its result is empty only
if the catalog itself is empty. -/
theorem getRecommendedJobs_spec (db : List Job) (gi : String) :
    (∀ m ks, majorKeywords.find? (fun e => pyContains (pyLower gi) e.1) = some (m, ks) →
        getRecommendedJobs gi db =
          if db.filter (keywordHit ks) = [] then db.take 10
          else (db.filter (keywordHit ks)).take 20)
    ∧ (majorKeywords.find? (fun e => pyContains (pyLower gi) e.1) = none →
        getRecommendedJobs gi db = db.take 10)
    ∧ (getRecommendedJobs gi db = [] → db = []) := by
  refine ⟨?_, ?_, ?_⟩
  · intro m ks hfind
    have hks : ks ≠ [] := majorKeywords_sets_nonempty _ (List.mem_of_find?_eq_some hfind)
    have hfm : firstMatch (pyLower gi) majorKeywords = ks := by
      rw [firstMatch_eq_find, hfind]; rfl
    by_cases hf : db.filter (keywordHit ks) = []
    · simp [getRecommendedJobs, hfm, hks, hf]
    · have htake : (db.filter (keywordHit ks)).take 20 ≠ [] := by
        intro h
        exact hf (take_pos_eq_nil (by decide) h)
      simp [getRecommendedJobs, hfm, hks, hf, htake]
  · intro hfind
    have hfm : firstMatch (pyLower gi) majorKeywords = [] := by
      rw [firstMatch_eq_find, hfind]; rfl
    simp [getRecommendedJobs, hfm]
  · intro hres
    by_cases hk : firstMatch (pyLower gi) majorKeywords = []
    · simp [getRecommendedJobs, hk] at hres
      exact hres
    · by_cases hj : (db.filter (keywordHit (firstMatch (pyLower gi) majorKeywords))).take 20 = []
      · simp [getRecommendedJobs, hk, hj] at hres
        exact hres
      · simp [getRecommendedJobs, hk, hj] at hres

/-- A one-row catalog used as the concrete pre-state of the seeding bug. -/
def nurseJob : Job := ⟨"Registered Nurse", "City Hospital", "Los Angeles, CA", "Other"⟩

/-- C3 (code bug evidence): on the non-empty catalog `[nurseJob]`, a search
whose title filter matches nothing makes the seeding branch fire — the
comment in the source says "If no jobs in DB, add sample data" but the code
tests the filtered result — so the call appends the 85 sample jobs and the
catalog state changes. -/
theorem getJobs_reseeds_nonempty_catalog :
    (getJobs (some "xyzzy") none none [nurseJob]).db = nurseJob :: sampleJobs ∧
    nurseJob :: sampleJobs ≠ [nurseJob] := by
  exact ⟨rfl, by decide⟩

/-- Witness for C2: a matched major ("Computer Science") takes the
keyword-filter branch and an unmatched one ("History") the first-10
fallback; on the empty catalog the result is empty. -/
theorem getRecommendedJobs_spec_witness :
    getRecommendedJobs "Computer Science" [nurseJob] =
      (if [nurseJob].filter (keywordHit
          ["developer", "software", "programmer", "engineer", "it", "tech", "data", "web"]) = []
       then [nurseJob].take 10
       else ([nurseJob].filter (keywordHit
          ["developer", "software", "programmer", "engineer", "it", "tech", "data", "web"])).take 20)
    ∧ getRecommendedJobs "History" [nurseJob] = [nurseJob].take 10
    ∧ ([] : List Job) = [] :=
  ⟨(getRecommendedJobs_spec [nurseJob] "Computer Science").1 "computer science"
      ["developer", "software", "programmer", "engineer", "it", "tech", "data", "web"]
      (by decide),
   (getRecommendedJobs_spec [nurseJob] "History").2.1 (by decide),
   (getRecommendedJobs_spec [] "History").2.2 (by decide)⟩

/-- C4 (code bug evidence): on the post-seed catalog, a title filter that no
job satisfies returns the whole (re-seeded, now doubled) catalog instead of
the empty set of matches demanded by the filter semantics. -/
theorem getJobs_ignores_filter_when_empty :
    (getJobs (some "xyzzy") none none sampleJobs).returned = sampleJobs ++ sampleJobs ∧
    sampleJobs.filter (jobFilter (some "xyzzy") none none) = [] ∧
    sampleJobs ≠ [] := by
  refine ⟨rfl, by decide, by decide⟩

/-- A password of 71 ASCII bytes followed by the two-byte character `¢`:
its UTF-8 encoding is 73 bytes and the 72-byte cut splits the last
character. -/
def pwSplitCent : String := String.mk (List.replicate 71 'a' ++ ['¢'])

/-- A password of 71 ASCII bytes followed by the three-byte character `€`:
its 72-byte cut also splits the last character, at a different byte. -/
def pwSplitEuro : String := String.mk (List.replicate 71 'a' ++ ['€'])

/-- `pwSplitCent` with one more ASCII byte after the split character. -/
def pwSplitCentZ : String := String.mk (List.replicate 71 'a' ++ ['¢', 'Z'])

/-- C5 counterexample: the claim "verify succeeds iff the passwords agree on
their first 72 UTF-8 bytes" fails — storing `pwSplitCent` and presenting
`pwSplitEuro`, verification succeeds (both truncate-then-decode to the same
71 characters, the split trailing character being dropped by
`errors='ignore'`) although their first 72 encoded bytes differ at
byte 72. -/
theorem verify_not_iff_72_byte_cut :
    verifyPassword pwSplitEuro (getPasswordHash pwSplitCent) = true ∧
    (utf8Encode pwSplitEuro).take 72 ≠ (utf8Encode pwSplitCent).take 72 := by
  exact ⟨by decide, by decide⟩

/-- C5 amended: verification succeeds iff the two passwords agree after the
code's actual processing — truncation to the first 72 UTF-8 bytes followed
by decoding that drops a split trailing character; and bytes beyond the
first 72 never affect the outcome (passwords agreeing on their first 72
encoded bytes verify identically against every stored hash). -/
theorem verify_iff_truncated_decoded_match (p q : String) :
    (verifyPassword p (getPasswordHash q) = true ↔ pyTruncate72 p = pyTruncate72 q)
    ∧ (∀ p2 hashed, (utf8Encode p).take 72 = (utf8Encode p2).take 72 →
        verifyPassword p hashed = verifyPassword p2 hashed) := by
  constructor
  · simp [verifyPassword, getPasswordHash]
  · intro p2 hashed h
    simp [verifyPassword, pyTruncate72, h]

/-- Witness for C5 amended: a password verifies against its own hash, and
the two passwords `pwSplitCent` and `pwSplitCentZ`, which agree on their
first 72 encoded bytes, verify identically. -/
theorem verify_iff_truncated_decoded_match_witness :
    verifyPassword "abc" (getPasswordHash "abc") = true ∧
    verifyPassword pwSplitCent (getPasswordHash pwSplitCent) =
      verifyPassword pwSplitCentZ (getPasswordHash pwSplitCent) :=
  ⟨(verify_iff_truncated_decoded_match "abc" "abc").1.mpr rfl,
   (verify_iff_truncated_decoded_match pwSplitCent pwSplitCent).2 pwSplitCentZ
     (getPasswordHash pwSplitCent) (by decide)⟩

/-- C6: a token issued at time `issued` validates successfully (returning
the subject) at any time in `[issued, issued + 30 min)` and fails with the
distinguished `expired` kind — not the generic `invalid` kind — at or after
`issued + 30 min`. -/
theorem token_validity_window (subject : String) (issued now : Nat) :
    (issued ≤ now → now < issued + ACCESS_TOKEN_EXPIRE_MINUTES * 60 →
      getCurrentUserEmail (createAccessToken subject issued) now = .ok subject)
    ∧ (issued + ACCESS_TOKEN_EXPIRE_MINUTES * 60 ≤ now →
      getCurrentUserEmail (createAccessToken subject issued) now = .error .expired)
    ∧ TokenError.expired ≠ TokenError.invalid := by
  refine ⟨?_, ?_, by decide⟩
  · intro h1 h2
    have hlt : ¬(issued + ACCESS_TOKEN_EXPIRE_MINUTES * 60 ≤ now) := by omega
    simp [getCurrentUserEmail, createAccessToken, hlt]
  · intro h
    simp [getCurrentUserEmail, createAccessToken, h]

/-- Witness for C6: a token issued at second 1000 is accepted at second
2799 (the last instant of the window) and expired at second 2800. -/
theorem token_validity_window_witness :
    getCurrentUserEmail (createAccessToken "alice" 1000) 2799 = .ok "alice" ∧
    getCurrentUserEmail (createAccessToken "alice" 1000) 2800 = .error .expired :=
  ⟨(token_validity_window "alice" 1000 2799).1 (by decide) (by decide),
   (token_validity_window "alice" 1000 2800).2.1 (by decide)⟩

/-- Inversion of a successful submission: the duplicate check was negative,
the job id resolved, and the new state appends exactly the created
"pending" row. -/
theorem createApplication_ok_inv {userId jobId : Nat} {s s2 : LedgerState}
    {row : JobApplication}
    (h : createApplication userId jobId s = .ok (s2, row)) :
    s.apps.any (samePair userId jobId) = false ∧ s.jobs.contains jobId = true ∧
    row = ⟨s.apps.length + 1, userId, jobId, "pending"⟩ ∧
    s2.apps = s.apps ++ [row] ∧ s2.jobs = s.jobs := by
  unfold createApplication at h
  by_cases h1 : s.apps.any (samePair userId jobId) = true
  · rw [if_pos h1] at h
    exact absurd h (by simp)
  · have h1f : s.apps.any (samePair userId jobId) = false := by simpa using h1
    rw [if_neg h1] at h
    by_cases h2 : s.jobs.contains jobId = true
    · rw [if_pos h2] at h
      have hpair := Except.ok.inj h
      rw [Prod.mk.injEq] at hpair
      obtain ⟨hs, hr⟩ := hpair
      exact ⟨h1f, h2, hr.symm, by rw [← hs, hr], by rw [← hs]⟩
    · rw [if_neg h2] at h
      exact absurd h (by simp)

/-- C7: for a state in which the job exists and the user has not yet
applied, the first submission succeeds and creates a "pending" application,
and an immediately repeated submission for the same (user, job) pair fails
with `alreadyApplied`; and every state reachable by the operations of this
core has at most one application row per (user, job) pair. -/
theorem application_unique_per_pair :
    (∀ (s : LedgerState) (userId jobId : Nat),
        jobId ∈ s.jobs → s.apps.any (samePair userId jobId) = false →
        ∃ s2 row, createApplication userId jobId s = .ok (s2, row) ∧
          row.status = "pending" ∧
          createApplication userId jobId s2 = .error .alreadyApplied)
    ∧ (∀ s, Reachable s → AtMostOnePerPair s) := by
  constructor
  · intro s userId jobId hjob hnew
    have hcont : s.jobs.contains jobId = true := List.elem_iff.mpr hjob
    refine ⟨⟨s.jobs, s.apps ++ [⟨s.apps.length + 1, userId, jobId, "pending"⟩]⟩,
      ⟨s.apps.length + 1, userId, jobId, "pending"⟩, ?_, rfl, ?_⟩
    · unfold createApplication
      rw [if_neg (by simp [hnew]), if_pos hcont]
    · unfold createApplication
      rw [if_pos (by simp [samePair])]
  · intro s hreach
    induction hreach with
    | init => exact List.Pairwise.nil
    | addJob jobId _ ih => exact ih
    | applyOk hre hok ih =>
      obtain ⟨hany, hcont, hrow, happs, _⟩ := createApplication_ok_inv hok
      unfold AtMostOnePerPair at ih ⊢
      rw [happs, List.pairwise_append]
      refine ⟨ih, by simp, ?_⟩
      intro a ha b hb
      have hb2 := List.mem_singleton.mp hb
      subst hb2
      have hfalse := List.any_eq_false.mp hany a ha
      rw [hrow]
      simp [samePair] at hfalse ⊢
      intro hu
      exact hfalse hu

/-- Witness for C7: in the store holding job 1 and no applications, user 7
submits for job 1 — the first call succeeds with a "pending" row and the
second fails with `alreadyApplied`; the empty store satisfies the
uniqueness invariant. -/
theorem application_unique_per_pair_witness :
    (∃ s2 row, createApplication 7 1 ⟨[1], []⟩ = .ok (s2, row) ∧
      row.status = "pending" ∧
      createApplication 7 1 s2 = .error .alreadyApplied)
    ∧ AtMostOnePerPair ⟨[], []⟩ :=
  ⟨application_unique_per_pair.1 ⟨[1], []⟩ 7 1 (by decide) (by decide),
   application_unique_per_pair.2 ⟨[], []⟩ Reachable.init⟩

/-- C8 counterexample: in the state whose application table already holds a
row for user 7 and job id 5 while no job with id 5 exists, submitting again
fails with `alreadyApplied` — not with the `jobNotFound` the claim demands
for every state with an unresolvable job id. -/
theorem dangling_pair_not_jobNotFound :
    createApplication 7 5 ⟨[], [⟨1, 7, 5, "pending"⟩]⟩ =
      .error .alreadyApplied ∧
    (Except.error .alreadyApplied : Except AppError (LedgerState × JobApplication)) ≠
      .error .jobNotFound :=
  ⟨rfl, by simp⟩

/-- C8 amended: for every state in which the requesting user has no
existing application row for the id, submitting for a job id that does not
resolve to an existing job fails with `jobNotFound`; the error return
carries no new state, so no application record is created.  (When the user
does already have a row for that id, the call fails with `alreadyApplied`
instead — see the C10 theorem.) -/
theorem jobNotFound_when_no_prior_application (s : LedgerState) (userId jobId : Nat)
    (hjob : jobId ∉ s.jobs) (hnew : s.apps.any (samePair userId jobId) = false) :
    createApplication userId jobId s = .error .jobNotFound := by
  have hcont : ¬(s.jobs.contains jobId = true) := fun hc => hjob (List.elem_iff.mp hc)
  unfold createApplication
  rw [if_neg (by simp [hnew]), if_neg hcont]

/-- Witness for C8 amended: job id 5 does not exist in the store holding
only job 1, and the user has not applied, so submission fails with
`jobNotFound`. -/
theorem jobNotFound_when_no_prior_application_witness :
    createApplication 7 5 ⟨[1], []⟩ = .error .jobNotFound :=
  jobNotFound_when_no_prior_application ⟨[1], []⟩ 7 5 (by decide) (by decide)

/-- C10: the duplicate check runs before the job-existence check, so in any
state in which the user already has an application row for the job id —
whether or not a job with that id exists, in particular when none does —
submitting again fails with `alreadyApplied`, never with `jobNotFound`; the
error return carries no new state, so the ledger is unchanged. -/
theorem alreadyApplied_shadows_jobNotFound (s : LedgerState) (userId jobId : Nat)
    (hex : s.apps.any (samePair userId jobId) = true) :
    createApplication userId jobId s = .error .alreadyApplied := by
  unfold createApplication
  rw [if_pos hex]

/-- Witness for C10: user 3 already has a row for job id 9 although no job
with id 9 exists; resubmission reports `alreadyApplied`, not
`jobNotFound`. -/
theorem alreadyApplied_shadows_jobNotFound_witness :
    createApplication 3 9 ⟨[], [⟨1, 3, 9, "pending"⟩]⟩ = .error .alreadyApplied :=
  alreadyApplied_shadows_jobNotFound ⟨[], [⟨1, 3, 9, "pending"⟩]⟩ 3 9 (by decide)

/-- C9: login failure is uniform — whenever two login attempts against the
same credential store both fail (one may fail because the email is absent,
the other because the password mismatches), the results are identical, so
the failure cause cannot be distinguished from the response. -/
theorem login_failure_uniform (users : List UserRec) (e1 p1 e2 p2 : String)
    (h1 : isSuccess (login users e1 p1) = false)
    (h2 : isSuccess (login users e2 p2) = false) :
    login users e1 p1 = login users e2 p2 := by
  have key : ∀ e p, isSuccess (login users e p) = false →
      login users e p = .error .invalidCredentials := by
    intro e p h
    cases hl : login users e p with
    | ok u => rw [hl] at h; simp [isSuccess] at h
    | error err => cases err; rfl
  rw [key e1 p1 h1, key e2 p2 h2]

/-- Witness for C9: against a store holding only the user `"alice"`, the
attempt with the unknown email `"bob"` and the attempt with `"alice"` but a
wrong password produce the identical failure. -/
theorem login_failure_uniform_witness :
    login [⟨1, "alice", getPasswordHash "hunter2"⟩] "bob" "hunter2" =
      login [⟨1, "alice", getPasswordHash "hunter2"⟩] "alice" "wrong" :=
  login_failure_uniform [⟨1, "alice", getPasswordHash "hunter2"⟩] "bob" "hunter2"
    "alice" "wrong" (by decide) (by decide)

end JobSearch
